import Mathlib

/-!
Verification of the `Moment` DocType (`moments/doctype/moment/moment.py`), a
frappe `Document` subclass implementing social-post features (content
validation, hashtag/mention/link processing, likes, comments, shares, a feed
query, and naive sentiment/safety scoring).

Modelling conventions, fixed once here:

* frappe string fields are `String`, with the empty string standing for both
  Python `None` and `""` (both are falsy under `if self.field:`).
* Child tables and database tables are Lean lists of record structures; the
  database is a `DBState` structure threaded explicitly.
* `frappe.throw` aborts the request, so a throwing operation is modelled as an
  `Except String` error; since the throw happens before any mutation is
  committed, the error carries no state and the caller's state is unchanged.
* `self.save()` persists the document's fields; the re-entrant hook cascade a
  real frappe `save` would trigger (validate/before_save/on_update — note
  `update_engagement_metrics` calling `self.save()` from `on_update` would
  recurse) is not part of any claim and is not modelled.
* `now()` is an effect; functions that read the clock take it as a `now`
  argument.
* Python `int` is `Int`; nullable counters are `Option Int` (`x or 0` is
  `Option.getD · 0`).  The float literals `0.1`, `1.0`, `0.0` are modelled as
  the exact rationals `1/10`, `1`, `0` in `ℚ`.
* The regex `\w` character class is modelled on the ASCII alphabet
  (`[A-Za-z0-9_]`); all concrete inputs used in witnesses are ASCII.
-/

namespace Moments

/-- Python truthiness of a string-valued frappe field (`None`/`""` falsy). -/
def truthyS (s : String) : Bool := s != ""

/-- Python truthiness of a `dict.get` result (`None` or `""` falsy). -/
def truthyOpt : Option String → Bool
  | none => false
  | some s => s != ""

/-- Python `pat in s` on character lists: `pat` occurs contiguously in `s`. -/
def containsSub (pat : List Char) : List Char → Bool
  | [] => pat.isEmpty
  | c :: rest => pat.isPrefixOf (c :: rest) || containsSub pat rest

/-- Python `str.lower()` (ASCII model, applied characterwise). -/
def lowerStr (s : String) : String := String.mk (s.data.map Char.toLower)

/-- The regex `\w` class (ASCII model: letters, digits, underscore). -/
def isWordChar (c : Char) : Bool := c.isAlphanum || c == '_'

/-- A row of the `mentions` child table; only its `user` column is read, so a
row is modelled as that user name.  `extract_mentions` later overwrites the
same Python attribute with a JSON *string*, hence the second constructor. -/
inductive MentionsField where
  | rows (users : List String)
  | js (s : String)
deriving DecidableEq

/-- Python truthiness of the dynamically typed `mentions` attribute. -/
def MentionsField.truthy : MentionsField → Bool
  | .rows l => !l.isEmpty
  | .js s => s != ""

/-- The `location` dict: keys read by the code are `latitude`, `longitude`
and `name` (via `.get`, so each value is optional). -/
structure LocationData where
  latitude : Option String
  longitude : Option String
  name : Option String
deriving DecidableEq

/-- The fields of a `Moment` document that the code reads or writes. -/
structure MomentDoc where
  name : String
  moment_id : String
  content : String
  attachments : List String
  author : String
  moment_type : String
  privacy : String
  status : String
  posted_date : String
  mentions : MentionsField
  hashtags : String
  location : Option LocationData
  visibility : String
  preview : String
  likes_count : Option Int
  comments_count : Option Int
  shares_count : Option Int
  views_count : Option Int
  engagement_score : Option ℚ
  external_platform_id : String
  ai_analysis : String
deriving DecidableEq

/-- A `Moment Like` record. -/
structure LikeRec where
  moment : String
  user : String
  like_date : String
deriving DecidableEq

/-- A `Moment Comment` record. -/
structure CommentRec where
  moment : String
  user : String
  comment : String
  comment_date : String
deriving DecidableEq

/-- A `Moment Share` record. -/
structure ShareRec where
  moment : String
  user : String
  share_date : String
deriving DecidableEq

/-- A `Moment Notification` record. -/
structure NotifRec where
  user : String
  moment : String
  notification_type : String
  message : String
  is_read : Int
  created_date : String
deriving DecidableEq

/-- A `Hashtag` record (named by its hashtag). -/
structure HashtagRec where
  hashtag : String
  usage_count : Int
  first_used : String
  last_used : String
deriving DecidableEq

/-- A `Moment Mention` record. -/
structure MentionRec where
  moment : String
  mentioned_user : String
  mention_date : String
deriving DecidableEq

/-- A `tabUser Follow` row: `follower` follows `following`. -/
structure FollowRec where
  follower : String
  following : String
deriving DecidableEq

/-- A `tabEmployee` row (nullable `department` column). -/
structure EmpRec where
  user : String
  department : Option String
deriving DecidableEq

/-- The columns of `tabMoment` selected by `get_moment_feed`.  Counter
columns are nullable ints; the rest are kept as raw string column values. -/
structure MomentRow where
  name : String
  moment_id : String
  content : String
  author : String
  posted_date : String
  moment_type : String
  privacy : String
  likes_count : Option Int
  comments_count : Option Int
  shares_count : Option Int
  location : String
  attachments : String
  hashtags : String
  mentions : String
  preview : String
deriving DecidableEq

/-- The database tables the code touches. -/
structure DBState where
  users : List String
  likes : List LikeRec
  comments : List CommentRec
  shares : List ShareRec
  notifications : List NotifRec
  hashtag_recs : List HashtagRec
  mention_recs : List MentionRec
  follows : List FollowRec
  employees : List EmpRec
  moments : List MomentRow
deriving DecidableEq

/-! ### Validation (`validate` and its helpers) -/

/-- `inappropriate_words` of `contains_inappropriate_content`. -/
def inappropriate_words : List String :=
  ["spam", "scam", "fraud", "illegal", "inappropriate"]

/-- `contains_inappropriate_content`: any of the words occurs as a substring
of the lowercased content (Python `word in content_lower`). -/
def contains_inappropriate_content (m : MomentDoc) : Bool :=
  if !truthyS m.content then false
  else inappropriate_words.any (fun w => containsSub w.data (lowerStr m.content).data)

/-- `validate_moment_data`. -/
def validate_moment_data (m : MomentDoc) : Except String Unit :=
  if !truthyS m.content && m.attachments.isEmpty then
    .error "Moment must have content or attachments"
  else if !truthyS m.author then
    .error "Author is required"
  else if !truthyS m.moment_type then
    .error "Moment type is required"
  else
    .ok ()

/-- `set_defaults`: four guarded assignments to four distinct fields, so the
sequential mutation is one record update. -/
def set_defaults (now : String) (m : MomentDoc) : MomentDoc :=
  { m with
    moment_type := if !truthyS m.moment_type then "Text" else m.moment_type,
    privacy := if !truthyS m.privacy then "Public" else m.privacy,
    status := if !truthyS m.status then "Published" else m.status,
    posted_date := if !truthyS m.posted_date then now else m.posted_date }

/-- `validate_content`. -/
def validate_content (m : MomentDoc) : Except String Unit :=
  if truthyS m.content then
    if m.content.length > 2000 then
      .error "Content cannot exceed 2000 characters"
    else if contains_inappropriate_content m then
      .error "Content contains inappropriate material"
    else
      .ok ()
  else
    .ok ()

/-- The loop body of `validate_mentions` over the child-table rows. -/
def validate_mentions_rows (users : List String) : List String → Except String Unit
  | [] => .ok ()
  | u :: rest =>
    if users.contains u then validate_mentions_rows users rest
    else .error ("Mentioned user " ++ u ++ " does not exist")

/-- `validate_mentions`.  On the child-table form it checks each row's user
against the `User` table.  If the attribute already holds the JSON string that
`extract_mentions` writes, Python would iterate its characters and crash on
`mention.user` (`AttributeError`); that crash is modelled as an error. -/
def validate_mentions (users : List String) (m : MomentDoc) : Except String Unit :=
  if m.mentions.truthy then
    match m.mentions with
    | .rows l => validate_mentions_rows users l
    | .js _ => .error "AttributeError"
  else
    .ok ()

/-- `validate_location` (a present location dict is truthy). -/
def validate_location (m : MomentDoc) : Except String Unit :=
  match m.location with
  | none => .ok ()
  | some loc =>
    if !truthyOpt loc.latitude || !truthyOpt loc.longitude then
      .error "Invalid location data"
    else
      .ok ()

/-- `validate`: the hook body, in source order. -/
def validate (users : List String) (now : String) (m : MomentDoc) :
    Except String MomentDoc := do
  validate_moment_data m
  let m1 := set_defaults now m
  validate_content m1
  validate_mentions users m1
  validate_location m1
  return m1

/-! ### Content processing (`before_save` and its helpers)

Python's `re.sub`/`re.findall` over the two concrete patterns `#(\w+)` and
`@(\w+)`, the URL pattern, and `str.replace`, are modelled directly as
left-to-right scanners over `List Char`, with the match-at-a-position /
advance-one-character-on-failure discipline of the `re` engine. -/

/-- Python `content.replace(pat, rep)` for the non-empty pattern `p :: ps`:
replace non-overlapping occurrences left to right, continuing after each
replacement.  The `fuel` argument only makes the recursion structural; every
recursive call shortens the list by at least one character, so with
`fuel = l.length` (as in `replaceList` below) the `0` clause is unreachable. -/
def replaceListF (p : Char) (ps rep : List Char) : Nat → List Char → List Char
  | _, [] => []
  | 0, l => l
  | fuel + 1, c :: rest =>
    if c == p && ps.isPrefixOf rest then
      rep ++ replaceListF p ps rep fuel (rest.drop ps.length)
    else
      c :: replaceListF p ps rep fuel rest

def replaceList (p : Char) (ps rep l : List Char) : List Char :=
  replaceListF p ps rep l.length l

/-- `re.findall` for the pattern `t(\w+)` (capture group contents, in order
of occurrence, non-overlapping, greedy `\w+`); structural via fuel as above. -/
def findallTagF (t : Char) : Nat → List Char → List (List Char)
  | _, [] => []
  | 0, _ => []
  | fuel + 1, c :: rest =>
    if c == t then
      if (rest.takeWhile isWordChar).isEmpty then findallTagF t fuel rest
      else rest.takeWhile isWordChar :: findallTagF t fuel (rest.dropWhile isWordChar)
    else findallTagF t fuel rest

def findallTag (t : Char) (l : List Char) : List (List Char) :=
  findallTagF t l.length l

/-- `re.sub` for the pattern `t(\w+)` with replacement `a ++ \1 ++ b ++ \1 ++ c2`
(the shape of both the hashtag and the mention replacement templates);
structural via fuel as above. -/
def subTagF (t : Char) (a b c2 : List Char) : Nat → List Char → List Char
  | _, [] => []
  | 0, l => l
  | fuel + 1, c :: rest =>
    if c == t then
      if (rest.takeWhile isWordChar).isEmpty then c :: subTagF t a b c2 fuel rest
      else
        a ++ rest.takeWhile isWordChar ++ b ++ rest.takeWhile isWordChar ++ c2 ++
          subTagF t a b c2 fuel (rest.dropWhile isWordChar)
    else c :: subTagF t a b c2 fuel rest

def subTag (t : Char) (a b c2 l : List Char) : List Char :=
  subTagF t a b c2 l.length l

/-- The character class repeated by the URL pattern
`http[s]?://(?:[a-zA-Z]|[0-9]|[$-_@.&+]|[!*\\(\\),]|(?:%[0-9a-fA-F][0-9a-fA-F]))+`.
The alternatives flatten to one set: the range `$-_` (0x24–0x5F, which already
contains the digits, the upper-case letters and every listed symbol including
`%`, so the `%HH` alternative adds nothing), the lower-case letters, and `!`. -/
def isUrlChar (c : Char) : Bool :=
  (36 ≤ c.toNat && c.toNat ≤ 95) || (97 ≤ c.toNat && c.toNat ≤ 122) || c == '!'

/-- Length of the scheme part `http[s]?://` matched at the head of `l`
(`s?` is greedy; 0 when no scheme matches here). -/
def schemeLen (l : List Char) : Nat :=
  if ("https://".data).isPrefixOf l then 8
  else if ("http://".data).isPrefixOf l then 7
  else 0

def link_text_a : List Char := "<a href=\"".data
def link_text_b : List Char := "\" target=\"_blank\">".data
def anchor_close : List Char := "</a>".data

/-- `re.sub` for the URL pattern with replacement
`<a href="\g<0>" target="_blank">\g<0></a>`.  A scheme followed by no URL
character is a failed match; the scanner then advances one character. -/
def subLinksF : Nat → List Char → List Char
  | _, [] => []
  | 0, l => l
  | fuel + 1, c :: rest =>
    if schemeLen (c :: rest) = 0 then c :: subLinksF fuel rest
    else if (((c :: rest).drop (schemeLen (c :: rest))).takeWhile isUrlChar).isEmpty then
      c :: subLinksF fuel rest
    else
      link_text_a ++
      (c :: rest).take (schemeLen (c :: rest)) ++
      ((c :: rest).drop (schemeLen (c :: rest))).takeWhile isUrlChar ++
      link_text_b ++
      (c :: rest).take (schemeLen (c :: rest)) ++
      ((c :: rest).drop (schemeLen (c :: rest))).takeWhile isUrlChar ++
      anchor_close ++
      subLinksF fuel ((((c :: rest).drop (schemeLen (c :: rest)))).dropWhile isUrlChar)

def subLinks (l : List Char) : List Char :=
  subLinksF l.length l

/-- The emoji map of `process_emojis`, in dict insertion order. -/
def emoji_map : List (String × String) :=
  [(":smile:", "😊"), (":heart:", "❤️"), (":thumbs_up:", "👍"),
   (":thumbs_down:", "👎"), (":laugh:", "😂"), (":angry:", "😠"),
   (":sad:", "😢"), (":love:", "😍")]

/-- Python `content.replace(pat, rep)` on strings (patterns used in this file
are never empty; the empty-pattern case of Python is not modelled). -/
def replaceStr (pat rep s : String) : String :=
  match pat.data with
  | [] => s
  | p :: ps => String.mk (replaceList p ps rep.data s.data)

/-- `process_emojis`. -/
def process_emojis (content : String) : String :=
  emoji_map.foldl (fun c pe => replaceStr pe.1 pe.2 c) content

/-- `process_links`. -/
def process_links (content : String) : String :=
  String.mk (subLinks content.data)

def hashtag_text_a : List Char := "<a href=\"/hashtag/".data
def hashtag_text_b : List Char := "\" class=\"hashtag\">#".data
def mention_text_a : List Char := "<a href=\"/user/".data
def mention_text_b : List Char := "\" class=\"mention\">@".data

/-- `process_hashtags`: rewrite `#tag` to
`<a href="/hashtag/tag" class="hashtag">#tag</a>`. -/
def process_hashtags (content : String) : String :=
  String.mk (subTag '#' hashtag_text_a hashtag_text_b anchor_close content.data)

/-- `process_mentions`: rewrite `@user` to
`<a href="/user/user" class="mention">@user</a>`. -/
def process_mentions (content : String) : String :=
  String.mk (subTag '@' mention_text_a mention_text_b anchor_close content.data)

/-- The four rewriting stages of `process_content`, in source order. -/
def process_content_str (c : String) : String :=
  process_mentions (process_hashtags (process_links (process_emojis c)))

/-- `process_content`. -/
def process_content (m : MomentDoc) : MomentDoc :=
  if truthyS m.content then
    { m with content := process_content_str m.content }
  else m

/-- `re.findall(t(\w+), s)` on strings. -/
def findall_tags (t : Char) (s : String) : List String :=
  (findallTag t s.data).map String.mk

/-- One character of `json.dumps` string escaping.  The serialized strings in
this file come from `\w` matches, on which `json.dumps` performs no escaping;
the `\uXXXX` escapes for control and non-ASCII characters are not modelled. -/
def json_escape_char (c : Char) : String :=
  if c == '"' then "\\\""
  else if c == '\\' then "\\\\"
  else if c == '\n' then "\\n"
  else if c == '\t' then "\\t"
  else if c == '\r' then "\\r"
  else String.singleton c

/-- `json.dumps` of a string. -/
def json_quote (s : String) : String :=
  "\"" ++ String.join (s.data.map json_escape_char) ++ "\""

/-- `json.dumps` of a list of strings (default separator `", "`). -/
def json_dumps_str_list (l : List String) : String :=
  "[" ++ String.intercalate ", " (l.map json_quote) ++ "]"

/-- `create_hashtag_record`: insert a fresh `Hashtag` or bump its usage. -/
def create_hashtag_record (now : String) (st : DBState) (h : String) : DBState :=
  if !(st.hashtag_recs.any (fun r => r.hashtag == h)) then
    { st with hashtag_recs := st.hashtag_recs ++
        [{ hashtag := h, usage_count := 1, first_used := now, last_used := now }] }
  else
    { st with hashtag_recs := st.hashtag_recs.map (fun r =>
        if r.hashtag == h then
          { r with usage_count := r.usage_count + 1, last_used := now }
        else r) }

/-- `extract_hashtags`: set the `hashtags` field to the JSON dump of the
`#(\w+)` matches of the (current) content and create a record per match. -/
def extract_hashtags (now : String) (st : DBState) (m : MomentDoc) :
    DBState × MomentDoc :=
  if truthyS m.content then
    (((findall_tags '#' m.content).foldl (create_hashtag_record now) st),
     { m with hashtags := json_dumps_str_list (findall_tags '#' m.content) })
  else (st, m)

/-- `create_mention_record`. -/
def create_mention_record (now mname : String) (st : DBState) (u : String) :
    DBState :=
  { st with mention_recs := st.mention_recs ++
      [{ moment := mname, mentioned_user := u, mention_date := now }] }

/-- `extract_mentions`: overwrite the `mentions` attribute with the JSON dump
of the `@(\w+)` matches and create a record per match. -/
def extract_mentions (now : String) (st : DBState) (m : MomentDoc) :
    DBState × MomentDoc :=
  if truthyS m.content then
    (((findall_tags '@' m.content).foldl (create_mention_record now m.name) st),
     { m with mentions := .js (json_dumps_str_list (findall_tags '@' m.content)) })
  else (st, m)

/-- `set_privacy_settings`. -/
def set_privacy_settings (m : MomentDoc) : MomentDoc :=
  if m.privacy == "Private" then { m with visibility := "Author Only" }
  else if m.privacy == "Friends" then { m with visibility := "Friends Only" }
  else if m.privacy == "Department" then { m with visibility := "Department Only" }
  else { m with visibility := "Public" }

/-- `len(json.loads s)` for the string-list JSON produced by
`json_dumps_str_list` on `\w`-only items: each item contributes exactly two
quote characters.  (No claim depends on the `preview` field, so a full JSON
parser is not modelled.) -/
def json_list_length (s : String) : Nat :=
  (s.data.countP (fun c => c == '"')) / 2

/-- `generate_preview`.  Two paths of the Python code crash and are totalized
here, neither being reachable from any claim: `len(None)` when content is
`None` (content is a `String` in this model), and `json.loads` of a non-empty
child table (`TypeError`; modelled as count 0). -/
def generate_preview (m : MomentDoc) : MomentDoc :=
  let content_preview :=
    if m.content.length > 100 then m.content.take 100 ++ "..." else m.content
  let mention_count : Nat :=
    match m.mentions with
    | .js s => if truthyS s then json_list_length s else 0
    | .rows _ => 0
  { m with preview :=
      "\x7b\"content_preview\": " ++ json_quote content_preview ++
      ", \"attachment_count\": " ++ toString m.attachments.length ++
      ", \"hashtag_count\": " ++
        toString (if truthyS m.hashtags then json_list_length m.hashtags else 0) ++
      ", \"mention_count\": " ++ toString mention_count ++
      ", \"location\": " ++
        (match m.location with
         | none => "null"
         | some loc =>
           match loc.name with
           | none => "null"
           | some n => json_quote n) ++
      "\x7d" }

/-- `before_save`: the hook body, in source order. -/
def before_save (now : String) (st : DBState) (m : MomentDoc) :
    DBState × MomentDoc :=
  let m1 := process_content m
  let p2 := extract_hashtags now st m1
  let p3 := extract_mentions now p2.1 p2.2
  let m4 := set_privacy_settings p3.2
  (p3.1, generate_preview m4)

/-! ### AI analysis and engagement -/

def positive_words : List String :=
  ["happy", "great", "awesome", "amazing", "love", "excellent", "wonderful"]

def negative_words : List String :=
  ["sad", "bad", "terrible", "awful", "hate", "disappointed", "angry"]

/-- `analyze_sentiment`: `sum(1 for word in words if word in content_lower)`
is the number of listed words occurring as a substring of the lowercased
content. -/
def analyze_sentiment (m : MomentDoc) : String :=
  if !truthyS m.content then "neutral"
  else
    let content_lower := lowerStr m.content
    let positive_count := positive_words.countP (fun w => containsSub w.data content_lower.data)
    let negative_count := negative_words.countP (fun w => containsSub w.data content_lower.data)
    if positive_count > negative_count then "positive"
    else if negative_count > positive_count then "negative"
    else "neutral"

/-- `classify_content`. -/
def classify_content (m : MomentDoc) : String :=
  if !truthyS m.content then "text"
  else
    let cl := (lowerStr m.content).data
    if ["work", "project", "meeting", "office"].any
        (fun w => containsSub w.data cl) then "work_related"
    else if ["celebration", "party", "birthday", "anniversary"].any
        (fun w => containsSub w.data cl) then "celebration"
    else if ["help", "support", "assistance"].any
        (fun w => containsSub w.data cl) then "support"
    else if ["idea", "suggestion", "feedback"].any
        (fun w => containsSub w.data cl) then "idea"
    else "general"

/-- The `inappropriate_words` list local to `analyze_safety`. -/
def safety_words : List String := ["spam", "scam", "fraud", "illegal"]

/-- `analyze_safety` (the floats `1.0`/`0.0` as the exact rationals `1`/`0`). -/
def analyze_safety (m : MomentDoc) : ℚ :=
  if !truthyS m.content then 1
  else
    let inappropriate_count :=
      safety_words.countP (fun w => containsSub w.data (lowerStr m.content).data)
    if inappropriate_count > 0 then 0 else 1

/-- `calculate_engagement_score` (`x or 0` on the nullable counters; the float
literal `0.1` as the exact rational `1/10`). -/
def calculate_engagement_score (m : MomentDoc) : ℚ :=
  let likes := m.likes_count.getD 0
  let comments := m.comments_count.getD 0
  let shares := m.shares_count.getD 0
  let views := m.views_count.getD 0
  (likes * 1 : ℚ) + (comments * 2 : ℚ) + (shares * 3 : ℚ) + (views : ℚ) * (1 / 10)

/-- `update_engagement_metrics`: store the score on the document.  (The
`self.save()` it then performs persists the document; its hook cascade is not
modelled, see the header.) -/
def update_engagement_metrics (m : MomentDoc) : MomentDoc :=
  { m with engagement_score := some (calculate_engagement_score m) }

/-! ### Whitelisted interaction endpoints -/

/-- Payload of `like_moment`/`unlike_moment`:
`{"status": ..., "likes_count": ...}`. -/
structure LikePayload where
  status : String
  likes_count : Option Int
deriving DecidableEq

/-- Payload of `add_comment`: `{"status": ..., "comments_count": ...}`. -/
structure CommentPayload where
  status : String
  comments_count : Option Int
deriving DecidableEq

/-- Payload of `share_moment`: `{"status": ..., "shares_count": ...}`. -/
structure SharePayload where
  status : String
  shares_count : Option Int
deriving DecidableEq

/-- `frappe.db.exists("Moment Like", {"moment": name, "user": user})`. -/
def like_exists (st : DBState) (mname user : String) : Bool :=
  st.likes.any (fun l => l.moment == mname && l.user == user)

/-- The `Moment Notification` record the interaction endpoints insert. -/
def interaction_notif (ntype msg author mname now : String) : NotifRec :=
  { user := author, moment := mname, notification_type := ntype,
    message := msg, is_read := 0, created_date := now }

/-- `like_moment`. -/
def like_moment (st : DBState) (m : MomentDoc) (user now : String) :
    Except String (DBState × MomentDoc × LikePayload) :=
  if like_exists st m.name user then
    .error "You have already liked this moment"
  else
    let st1 := { st with likes :=
      { moment := m.name, user := user, like_date := now } :: st.likes }
    let m1 := { m with likes_count := some (m.likes_count.getD 0 + 1) }
    let notif := interaction_notif "Like" (user ++ " liked your moment") m.author m.name now
    let st2 :=
      if user != m.author then { st1 with notifications := notif :: st1.notifications }
      else st1
    .ok (st2, m1, { status := "success", likes_count := m1.likes_count })

/-- `unlike_moment`.  `frappe.get_doc("Moment Like", {filters})` resolves the
filters with `frappe.db.get_value` and raises `frappe.DoesNotExistError`
(`frappe.throw(_("{0} {1} not found"), frappe.DoesNotExistError)`) when no
record matches, so the subsequent `if like:` test never sees a falsy value:
a loaded `Document` is always truthy. -/
def unlike_moment (st : DBState) (m : MomentDoc) (user : String) :
    Except String (DBState × MomentDoc × LikePayload) :=
  match st.likes.find? (fun l => l.moment == m.name && l.user == user) with
  | none => .error "Moment Like not found"
  | some _ =>
    let remaining := st.likes.eraseP (fun l => l.moment == m.name && l.user == user)
    let st1 := { st with likes := remaining }
    let m1 := { m with likes_count := some (max 0 (m.likes_count.getD 0 - 1)) }
    .ok (st1, m1, { status := "success", likes_count := m1.likes_count })

/-- `add_comment`. -/
def add_comment (st : DBState) (m : MomentDoc) (user comment_content now : String) :
    Except String (DBState × MomentDoc × CommentPayload) :=
  if !truthyS comment_content then
    .error "Comment content is required"
  else
    let st1 := { st with comments :=
      { moment := m.name, user := user, comment := comment_content,
        comment_date := now } :: st.comments }
    let m1 := { m with comments_count := some (m.comments_count.getD 0 + 1) }
    let notif := interaction_notif "Comment" (user ++ " commented on your moment") m.author m.name now
    let st2 :=
      if user != m.author then { st1 with notifications := notif :: st1.notifications }
      else st1
    .ok (st2, m1, { status := "success", comments_count := m1.comments_count })

/-- `share_moment` (no throwing path). -/
def share_moment (st : DBState) (m : MomentDoc) (user now : String) :
    DBState × MomentDoc × SharePayload :=
  let st1 := { st with shares :=
    { moment := m.name, user := user, share_date := now } :: st.shares }
  let m1 := { m with shares_count := some (m.shares_count.getD 0 + 1) }
  let notif := interaction_notif "Share" (user ++ " shared your moment") m.author m.name now
  let st2 :=
    if user != m.author then { st1 with notifications := notif :: st1.notifications }
    else st1
  (st2, m1, { status := "success", shares_count := m1.shares_count })

/-! ### The feed query (`get_moment_feed`) -/

/-- The scalar subquery
`SELECT department FROM tabEmployee WHERE user = %s`: the department column
of the requester's employee row (`none` both for no row and for a NULL
department; an SQL comparison against NULL is never true). -/
def dept_of (st : DBState) (user : String) : Option String :=
  (st.employees.find? (fun e => e.user == user)).bind (fun e => e.department)

/-- `author IN (SELECT following FROM tabUser Follow WHERE follower = user)`. -/
def follows_author (st : DBState) (user author : String) : Bool :=
  st.follows.any (fun f => f.follower == user && f.following == author)

/-- `author IN (SELECT e.user FROM tabEmployee e WHERE e.department = (...))`. -/
def author_in_user_department (st : DBState) (user author : String) : Bool :=
  match dept_of st user with
  | none => false
  | some d => st.employees.any (fun e => e.user == author && e.department == some d)

/-- The WHERE clause of `get_moment_feed`. -/
def feed_visible (st : DBState) (user : String) (m : MomentRow) : Bool :=
  m.privacy == "Public" ||
  (m.privacy == "Friends" && follows_author st user m.author) ||
  (m.privacy == "Department" && author_in_user_department st user m.author)

/-- Insertion step of `ORDER BY posted_date DESC` (later dates first). -/
def insert_by_date (r : MomentRow) : List MomentRow → List MomentRow
  | [] => [r]
  | x :: xs =>
    if x.posted_date ≤ r.posted_date then r :: x :: xs
    else x :: insert_by_date r xs

/-- `ORDER BY posted_date DESC` as an insertion sort (any stable realisation
of the ordering works for the claims, which only use membership). -/
def sort_by_date_desc : List MomentRow → List MomentRow
  | [] => []
  | x :: xs => insert_by_date x (sort_by_date_desc xs)

/-- `get_moment_feed`: filter by the WHERE clause, order by date descending,
then apply `OFFSET` and `LIMIT`. -/
def get_moment_feed (st : DBState) (user : String) (limit offset : Nat) :
    List MomentRow :=
  (((sort_by_date_desc (st.moments.filter (feed_visible st user))).drop offset).take limit)

/-! ### Spec-side definitions

These definitions follow the wording of spec claims (not the source), to be
compared against the source-derived definitions above. -/

/-- An invalid mention in the claim's sense: a child-table entry whose user
does not exist as a `User` record. -/
def mentions_invalid (users : List String) : MentionsField → Bool
  | .rows l => l.any (fun u => !users.contains u)
  | .js _ => false

/-- The five failure conditions listed by claim C1, in the claim's own terms:
missing content (content empty and no attachments), missing author, invalid
mention (a mentions entry whose user does not exist as a `User` record),
oversized content (longer than 2000 characters), disallowed keywords (content
containing one of the inappropriate words). -/
def c1_listed_failure (users : List String) (m : MomentDoc) : Bool :=
  (m.content == "" && m.attachments.isEmpty) ||
  (m.author == "") ||
  mentions_invalid users m.mentions ||
  decide (m.content.length > 2000) ||
  inappropriate_words.any (fun w => containsSub w.data (lowerStr m.content).data)

/-- Invalid location: a location dict present without latitude or longitude
(the condition of `validate_location`). -/
def invalid_location (m : MomentDoc) : Bool :=
  match m.location with
  | none => false
  | some loc => !truthyOpt loc.latitude || !truthyOpt loc.longitude

/-- The amended C1 failure condition: the five listed conditions plus the two
the code also checks, missing moment type and invalid location. -/
def amended_failure (users : List String) (m : MomentDoc) : Bool :=
  c1_listed_failure users m || (m.moment_type == "") || invalid_location m

/-- Maximal runs of `\w` characters, left to right (structural via fuel,
never exhausted for `fuel = l.length`). -/
def word_runsF : Nat → List Char → List (List Char)
  | _, [] => []
  | 0, _ => []
  | fuel + 1, c :: rest =>
    if isWordChar c then
      (c :: rest.takeWhile isWordChar) :: word_runsF fuel (rest.dropWhile isWordChar)
    else word_runsF fuel rest

def word_runs (l : List Char) : List (List Char) :=
  word_runsF l.length l

/-- The words of a string, in the claim's sense: its maximal `\w` runs. -/
def words_of (s : String) : List String := (word_runs s.data).map String.mk

/-- Claim C5's classifier as worded: count how many of the fixed positive and
negative word lists occur **as words** of the lowercased content. -/
def sentiment_by_words (m : MomentDoc) : String :=
  if !truthyS m.content then "neutral"
  else
    let ws := words_of (lowerStr m.content)
    let positive_count := positive_words.countP (fun w => ws.contains w)
    let negative_count := negative_words.countP (fun w => ws.contains w)
    if positive_count > negative_count then "positive"
    else if negative_count > positive_count then "negative"
    else "neutral"

/-- The amended C5 classifier: the same counts, with occurrence read as
**substring** occurrence in the lowercased content (stated via suffixes, to be
compared with the scanner `containsSub` used by the source model). -/
def sentiment_by_substrings (m : MomentDoc) : String :=
  if !truthyS m.content then "neutral"
  else
    let cl := (lowerStr m.content).data
    let positive_count :=
      positive_words.countP (fun w => cl.tails.any (fun t => w.data.isPrefixOf t))
    let negative_count :=
      negative_words.countP (fun w => cl.tails.any (fun t => w.data.isPrefixOf t))
    if positive_count > negative_count then "positive"
    else if negative_count > positive_count then "negative"
    else "neutral"

/-! ### Concrete fixtures for witnesses and counterexamples -/

/-- A blank document: every field at its falsy/empty value. -/
def base_doc : MomentDoc :=
  { name := "MOM-1", moment_id := "MOM-1", content := "", attachments := [],
    author := "", moment_type := "", privacy := "", status := "",
    posted_date := "", mentions := .rows [], hashtags := "", location := none,
    visibility := "", preview := "", likes_count := none,
    comments_count := none, shares_count := none, views_count := none,
    engagement_score := none, external_platform_id := "", ai_analysis := "" }

/-- An empty database. -/
def db_empty : DBState :=
  { users := [], likes := [], comments := [], shares := [], notifications := [],
    hashtag_recs := [], mention_recs := [], follows := [], employees := [],
    moments := [] }

/-- A well-formed document by `alice`. -/
def alice_doc : MomentDoc :=
  { base_doc with content := "hi", author := "alice", moment_type := "Text" }

/-- A database in which `bob` already liked `MOM-1`. -/
def db_liked : DBState :=
  { db_empty with likes := [{ moment := "MOM-1", user := "bob", like_date := "t0" }] }

/-- A document with content and author but no moment type. -/
def c1_doc : MomentDoc := { base_doc with content := "hello", author := "alice" }

/-- A document whose content contains `sad` only inside the word `crusade`. -/
def crusade_doc : MomentDoc :=
  { base_doc with content := "crusade", author := "alice", moment_type := "Text" }

/-- A document with a hashtag in its content. -/
def hash_doc : MomentDoc :=
  { base_doc with content := "hi #lean", author := "alice", moment_type := "Text" }

/-- A public moment row by `alice`. -/
def feed_row : MomentRow :=
  { name := "MOM-2", moment_id := "MOM-2", content := "hello",
    author := "alice", posted_date := "2024-01-01", moment_type := "Text",
    privacy := "Public", likes_count := none, comments_count := none,
    shares_count := none, location := "", attachments := "", hashtags := "",
    mentions := "", preview := "" }

/-- A database containing one public moment. -/
def db_feed : DBState := { db_empty with moments := [feed_row] }

/-! ## Helper lemmas -/

theorem containsSub_eq_tails_any (pat l : List Char) :
    containsSub pat l = l.tails.any (fun t => pat.isPrefixOf t) := by
  induction l with
  | nil => cases pat <;> simp [containsSub, List.isPrefixOf]
  | cons c rest ih => simp [containsSub, ih, List.tails]

/-! ## Claims -/

/-- C6: `calculate_engagement_score` returns
`likes_count*1 + comments_count*2 + shares_count*3 + views_count*0.1` with a
`None` or missing count treated as 0 (floats as exact rationals), and
`update_engagement_metrics` stores exactly this value in `engagement_score`. -/
theorem engagement_score_formula (m : MomentDoc) :
    calculate_engagement_score m =
      (m.likes_count.getD 0 : ℚ) * 1 + (m.comments_count.getD 0 : ℚ) * 2 +
        (m.shares_count.getD 0 : ℚ) * 3 + (m.views_count.getD 0 : ℚ) * 0.1 ∧
    (update_engagement_metrics m).engagement_score =
      some (calculate_engagement_score m) := by
  constructor
  · unfold calculate_engagement_score
    norm_num
  · rfl

/-- C5 counterexample: on content `"crusade"` the code's substring test finds
`"sad"` and returns `"negative"`, while no positive or negative word occurs as
a word of the content, so the claim's reading predicts `"neutral"`. -/
theorem analyze_sentiment_counterexample :
    analyze_sentiment crusade_doc = "negative" ∧
    sentiment_by_words crusade_doc = "neutral" ∧
    analyze_sentiment crusade_doc ≠ sentiment_by_words crusade_doc := by
  refine ⟨by decide, by decide, by decide⟩

/-- C5 (amended): `analyze_sentiment` returns `"neutral"` for empty content;
otherwise it counts how many of the fixed positive and negative words occur
as **substrings** of the lowercased content, returning `"positive"`,
`"negative"` or `"neutral"` by comparing the two counts. -/
theorem analyze_sentiment_by_substrings (m : MomentDoc) :
    analyze_sentiment m = sentiment_by_substrings m := by
  unfold analyze_sentiment sentiment_by_substrings
  simp only [containsSub_eq_tails_any]

/-- C2: for every moment and user, if a `Moment Like` record for the pair
exists, `like_moment` raises "You have already liked this moment" — the throw
aborts the request before any mutation, so the like records and `likes_count`
are unchanged; otherwise it creates exactly one like record and increments
`likes_count` by exactly one (a `None` count read as 0). -/
theorem like_moment_behavior (st : DBState) (m : MomentDoc) (user now : String) :
    (like_exists st m.name user = true →
      like_moment st m user now = .error "You have already liked this moment") ∧
    (like_exists st m.name user = false →
      ∃ st2 m1 p,
        like_moment st m user now = .ok (st2, m1, p) ∧
        p = { status := "success", likes_count := m1.likes_count } ∧
        m1.likes_count = some (m.likes_count.getD 0 + 1) ∧
        st2.likes = { moment := m.name, user := user, like_date := now } :: st.likes) := by
  constructor
  · intro h
    unfold like_moment
    rw [if_pos h]
  · intro h
    unfold like_moment
    rw [if_neg (by simp [h])]
    refine ⟨_, _, _, rfl, rfl, rfl, ?_⟩
    split <;> rfl

/-- Witness for C2 at concrete inputs. -/
theorem like_moment_behavior_witness :
    like_moment db_liked alice_doc "bob" "t1" =
      .error "You have already liked this moment" ∧
    (∃ st2 m1 p,
        like_moment db_empty alice_doc "bob" "t1" = .ok (st2, m1, p) ∧
        p = { status := "success", likes_count := m1.likes_count } ∧
        m1.likes_count = some (alice_doc.likes_count.getD 0 + 1) ∧
        st2.likes =
          { moment := alice_doc.name, user := "bob", like_date := "t1" } ::
            db_empty.likes) :=
  ⟨(like_moment_behavior db_liked alice_doc "bob" "t1").1 (by decide),
   (like_moment_behavior db_empty alice_doc "bob" "t1").2 (by decide)⟩

/-- C3: `add_comment` with empty comment content raises
"Comment content is required" (aborting before any mutation); with non-empty
content it creates exactly one `Moment Comment` record and increments
`comments_count` by exactly one (a `None` count read as 0). -/
theorem add_comment_behavior (st : DBState) (m : MomentDoc)
    (user cc now : String) :
    (cc = "" → add_comment st m user cc now = .error "Comment content is required") ∧
    (cc ≠ "" →
      ∃ st2 m1 p,
        add_comment st m user cc now = .ok (st2, m1, p) ∧
        p = { status := "success", comments_count := m1.comments_count } ∧
        m1.comments_count = some (m.comments_count.getD 0 + 1) ∧
        st2.comments =
          { moment := m.name, user := user, comment := cc, comment_date := now } ::
            st.comments) := by
  constructor
  · intro h
    unfold add_comment
    rw [if_pos (by simp [truthyS, h])]
  · intro h
    unfold add_comment
    rw [if_neg (by simp [truthyS, h])]
    refine ⟨_, _, _, rfl, rfl, rfl, ?_⟩
    split <;> rfl

/-- Witness for C3 at concrete inputs. -/
theorem add_comment_behavior_witness :
    add_comment db_empty alice_doc "bob" "" "t1" =
      .error "Comment content is required" ∧
    (∃ st2 m1 p,
        add_comment db_empty alice_doc "bob" "nice" "t1" = .ok (st2, m1, p) ∧
        p = { status := "success", comments_count := m1.comments_count } ∧
        m1.comments_count = some (alice_doc.comments_count.getD 0 + 1) ∧
        st2.comments =
          { moment := alice_doc.name, user := "bob", comment := "nice",
            comment_date := "t1" } :: db_empty.comments) :=
  ⟨(add_comment_behavior db_empty alice_doc "bob" "" "t1").1 rfl,
   (add_comment_behavior db_empty alice_doc "bob" "nice" "t1").2 (by decide)⟩

/-- C7: on success, each RPC endpoint returns a payload with status
`"success"` and the corresponding post-update counter: `likes_count` for
`like_moment` and `unlike_moment`, `comments_count` for `add_comment`,
`shares_count` for `share_moment`. -/
theorem rpc_success_payloads (st : DBState) (m : MomentDoc)
    (user cc now : String) :
    (∀ st2 m1 p, like_moment st m user now = .ok (st2, m1, p) →
        p.status = "success" ∧ p.likes_count = m1.likes_count) ∧
    (∀ st2 m1 p, unlike_moment st m user = .ok (st2, m1, p) →
        p.status = "success" ∧ p.likes_count = m1.likes_count) ∧
    (∀ st2 m1 p, add_comment st m user cc now = .ok (st2, m1, p) →
        p.status = "success" ∧ p.comments_count = m1.comments_count) ∧
    ((share_moment st m user now).2.2.status = "success" ∧
      (share_moment st m user now).2.2.shares_count =
        (share_moment st m user now).2.1.shares_count) := by
  refine ⟨?_, ?_, ?_, ⟨rfl, rfl⟩⟩
  · intro st2 m1 p h
    unfold like_moment at h
    split at h
    · simp at h
    · simp only [Except.ok.injEq, Prod.mk.injEq] at h
      obtain ⟨h1, h2, h3⟩ := h
      subst h1; subst h2; subst h3
      exact ⟨rfl, rfl⟩
  · intro st2 m1 p h
    unfold unlike_moment at h
    split at h
    · simp at h
    · simp only [Except.ok.injEq, Prod.mk.injEq] at h
      obtain ⟨h1, h2, h3⟩ := h
      subst h1; subst h2; subst h3
      exact ⟨rfl, rfl⟩
  · intro st2 m1 p h
    unfold add_comment at h
    split at h
    · simp at h
    · simp only [Except.ok.injEq, Prod.mk.injEq] at h
      obtain ⟨h1, h2, h3⟩ := h
      subst h1; subst h2; subst h3
      exact ⟨rfl, rfl⟩

/-- Witness for C7 at concrete inputs (all four endpoints succeeding). -/
theorem rpc_success_payloads_witness :
    (({ status := "success", likes_count := some 1 } : LikePayload).status =
        "success" ∧
      ({ status := "success", likes_count := some 1 } : LikePayload).likes_count =
        ({ alice_doc with likes_count := some 1 } : MomentDoc).likes_count) ∧
    (({ status := "success", likes_count := some 0 } : LikePayload).status =
        "success" ∧
      ({ status := "success", likes_count := some 0 } : LikePayload).likes_count =
        ({ alice_doc with likes_count := some 0 } : MomentDoc).likes_count) ∧
    (({ status := "success", comments_count := some 1 } : CommentPayload).status =
        "success" ∧
      ({ status := "success", comments_count := some 1 } : CommentPayload).comments_count =
        ({ alice_doc with comments_count := some 1 } : MomentDoc).comments_count) ∧
    ((share_moment db_empty alice_doc "bob" "t1").2.2.status = "success" ∧
      (share_moment db_empty alice_doc "bob" "t1").2.2.shares_count =
        (share_moment db_empty alice_doc "bob" "t1").2.1.shares_count) :=
  ⟨(rpc_success_payloads db_empty alice_doc "bob" "hi" "t1").1 _ _ _ rfl,
   (rpc_success_payloads db_liked alice_doc "bob" "hi" "t1").2.1 _ _ _ rfl,
   (rpc_success_payloads db_empty alice_doc "bob" "hi" "t1").2.2.1 _ _ _ rfl,
   (rpc_success_payloads db_empty alice_doc "bob" "hi" "t1").2.2.2⟩

/-- C10 (code bug): `unlike_moment` by a user who never liked the moment does
**not** return success: `frappe.get_doc("Moment Like", {filters})` raises
`DoesNotExistError` when no record matches, making the `if like:` guard dead
code.  The clamping half of the claim does hold: on the success path the
stored count is `max 0 (likes_count - 1)`, evaluating here to `some 0` from a
`None` count. -/
theorem unlike_moment_missing_like_raises :
    unlike_moment db_empty alice_doc "bob" = .error "Moment Like not found" ∧
    (∃ st2 m1 p,
        unlike_moment db_liked alice_doc "bob" = .ok (st2, m1, p) ∧
        m1.likes_count = some 0) :=
  ⟨rfl, ⟨_, _, _, rfl, rfl⟩⟩

/-! ### C1: what `validate` rejects -/

theorem isOk_error {a : Type} (msg : String) :
    (Except.error msg : Except String a).isOk = false := rfl

theorem isOk_ok {a : Type} (x : a) : (Except.ok x : Except String a).isOk = true := rfl

theorem isOk_pure (x : MomentDoc) :
    (pure x : Except String MomentDoc).isOk = true := rfl

theorem error_bind {a : Type} (msg : String) (k : Unit → Except String a) :
    ((Except.error msg : Except String Unit) >>= k) = Except.error msg := rfl

theorem ok_bind {a : Type} (u : Unit) (k : Unit → Except String a) :
    ((Except.ok u : Except String Unit) >>= k) = k u := rfl

theorem map_error {a b : Type} (f : a → b) (msg : String) :
    (f <$> (Except.error msg : Except String a)) = Except.error msg := rfl

theorem map_ok {a b : Type} (f : a → b) (x : a) :
    (f <$> (Except.ok x : Except String a)) = Except.ok (f x) := rfl

theorem bindUnit_isOk (e : Except String Unit)
    (k : Unit → Except String MomentDoc) :
    (e >>= k).isOk = (e.isOk && (k ()).isOk) := by
  cases e with
  | error a => rfl
  | ok u => cases u; rfl

theorem validate_moment_data_isOk (m : MomentDoc) :
    (validate_moment_data m).isOk =
      !((m.content == "" && m.attachments.isEmpty) || m.author == "" ||
        m.moment_type == "") := by
  unfold validate_moment_data truthyS
  repeat' split
  all_goals simp_all [Except.isOk, Except.toBool]
  tauto

theorem validate_content_isOk (m : MomentDoc) :
    (validate_content m).isOk =
      !(decide (m.content.length > 2000) || contains_inappropriate_content m) := by
  by_cases hc : m.content = ""
  · have hl : m.content.length = 0 := by rw [hc]; rfl
    simp [validate_content, truthyS, hc, contains_inappropriate_content, hl,
      Except.isOk, Except.toBool]
  · unfold validate_content
    rw [if_pos (by simp [truthyS, hc])]
    repeat' split
    all_goals simp_all [Except.isOk, Except.toBool]

theorem validate_mentions_rows_isOk (users l : List String) :
    (validate_mentions_rows users l).isOk =
      !(l.any (fun u => !users.contains u)) := by
  induction l with
  | nil => rfl
  | cons u rest ih =>
    unfold validate_mentions_rows
    split
    · simp_all
    · simp_all [Except.isOk, Except.toBool]

theorem validate_mentions_isOk (users : List String) (m : MomentDoc)
    (l : List String) (hl : m.mentions = .rows l) :
    (validate_mentions users m).isOk = !(l.any (fun u => !users.contains u)) := by
  unfold validate_mentions
  rw [hl]
  split
  · exact validate_mentions_rows_isOk users l
  · rename_i hfalse
    simp only [MentionsField.truthy, Bool.not_eq_true] at hfalse
    have : l = [] := by simpa using hfalse
    subst this
    rfl

theorem validate_location_isOk (m : MomentDoc) :
    (validate_location m).isOk = !(invalid_location m) := by
  unfold validate_location invalid_location
  split
  · rfl
  · split
    · simp_all [Except.isOk, Except.toBool]
      intro ha
      simp_all
    · simp_all [Except.isOk, Except.toBool]

/-- C1 counterexample: a document with content and an author but no
`moment_type` satisfies none of the claim's five listed failure conditions,
yet `validate` raises ("Moment type is required"), so the listed conditions
are not exhaustive. -/
theorem validate_unlisted_condition :
    validate [] "t0" c1_doc = .error "Moment type is required" ∧
    c1_listed_failure [] c1_doc = false :=
  ⟨rfl, by decide⟩

/-- C1 (amended): for a document whose `mentions` attribute is the child
table, `validate` raises precisely when one of the five listed conditions
holds **or** the moment type is missing **or** the location is invalid
(present without latitude or longitude); it succeeds otherwise. -/
theorem validate_raises_iff (users : List String) (now : String)
    (m : MomentDoc) (h : ∃ l, m.mentions = .rows l) :
    (validate users now m).isOk = !(amended_failure users m) := by
  obtain ⟨l, hl⟩ := h
  unfold validate
  simp only [bindUnit_isOk]
  have hml : (set_defaults now m).mentions = .rows l := hl
  rw [validate_moment_data_isOk, validate_content_isOk,
    validate_mentions_isOk users _ l hml, validate_location_isOk]
  have e1 : contains_inappropriate_content (set_defaults now m) =
      contains_inappropriate_content m := rfl
  have e2 : (set_defaults now m).content = m.content := rfl
  have e3 : invalid_location (set_defaults now m) = invalid_location m := rfl
  rw [e1, e2, e3]
  unfold amended_failure c1_listed_failure
  rw [hl, isOk_pure]
  simp only [mentions_invalid]
  have e4 : (inappropriate_words.any fun w =>
      containsSub w.data (lowerStr m.content).data) =
      contains_inappropriate_content m := by
    unfold contains_inappropriate_content
    split
    · rename_i hcc
      have hc : m.content = "" := by
        simpa [truthyS] using hcc
      rw [hc]
      decide
    · rfl
  rw [e4]
  generalize (m.content == "" && m.attachments.isEmpty) = b1
  generalize (m.author == "") = b2
  generalize (m.moment_type == "") = b3
  generalize decide (m.content.length > 2000) = b4
  generalize contains_inappropriate_content m = b5
  generalize l.any (fun u => !users.contains u) = b6
  generalize invalid_location m = b7
  cases b1 <;> cases b2 <;> cases b3 <;> cases b4 <;> cases b5 <;>
    cases b6 <;> cases b7 <;> rfl

/-- Witness for C1's amended theorem at concrete inputs. -/
theorem validate_raises_iff_witness :
    (validate ["alice"] "t0" alice_doc).isOk =
      !(amended_failure ["alice"] alice_doc) ∧
    (validate ["alice"] "t0" alice_doc).isOk = true :=
  ⟨validate_raises_iff ["alice"] "t0" alice_doc ⟨[], rfl⟩, by decide⟩

/-! ### C8: safety analysis of validated moments -/

/-- C8: the four words `analyze_safety` checks are a subset of the words
`contains_inappropriate_content` rejects, so for every moment that passed
`validate` the 0.0 branch of `analyze_safety` is unreachable and the safety
score is 1.0. -/
theorem analyze_safety_validated (users : List String) (now : String)
    (m m1 : MomentDoc) (h : validate users now m = .ok m1) :
    safety_words.all (fun w => inappropriate_words.contains w) = true ∧
    analyze_safety m1 = 1 := by
  refine ⟨by decide, ?_⟩
  unfold validate at h
  rcases e1 : validate_moment_data m with msg | u
  · rw [e1] at h; simp only [error_bind] at h; exact absurd h (by simp)
  rcases u
  rw [e1] at h; simp only [ok_bind] at h
  rcases e2 : validate_content (set_defaults now m) with msg | u
  · rw [e2] at h; simp only [error_bind] at h; exact absurd h (by simp)
  rcases u
  rw [e2] at h; simp only [ok_bind] at h
  rcases e3 : validate_mentions users (set_defaults now m) with msg | u
  · rw [e3] at h; simp only [error_bind] at h; exact absurd h (by simp)
  rcases u
  rw [e3] at h; simp only [ok_bind] at h
  rcases e4 : validate_location (set_defaults now m) with msg | u
  · rw [e4] at h; simp only [error_bind] at h; exact absurd h (by simp)
  rcases u
  rw [e4] at h; simp only [ok_bind] at h
  rw [show (pure (set_defaults now m) : Except String MomentDoc) =
      Except.ok (set_defaults now m) from rfl] at h
  have hm1 : m1 = set_defaults now m := (Except.ok.inj h).symm
  subst hm1
  unfold validate_content at e2
  unfold analyze_safety
  split
  · rfl
  · rename_i htr
    rw [if_pos (by simpa using htr)] at e2
    split at e2
    · exact absurd e2 (by simp)
    split at e2
    · exact absurd e2 (by simp)
    rename_i hni
    unfold contains_inappropriate_content at hni
    rw [if_neg (by simpa using htr)] at hni
    simp only [inappropriate_words, List.any_cons, List.any_nil,
      Bool.or_eq_true, not_or, Bool.or_eq_false_iff] at hni
    simp only [safety_words, List.countP_cons, List.countP_nil]
    simp only [Bool.not_eq_true] at hni
    rw [hni.1, hni.2.1, hni.2.2.1, hni.2.2.2.1]
    rfl

/-- Witness for C8: a concrete document passing `validate`. -/
theorem analyze_safety_validated_witness :
    safety_words.all (fun w => inappropriate_words.contains w) = true ∧
    analyze_safety (set_defaults "t0" alice_doc) = 1 :=
  analyze_safety_validated ["alice"] "t0" alice_doc (set_defaults "t0" alice_doc) rfl

/-! ### C9: feed visibility -/

theorem mem_insert_by_date {x r : MomentRow} {l : List MomentRow} :
    x ∈ insert_by_date r l ↔ x = r ∨ x ∈ l := by
  induction l with
  | nil => simp [insert_by_date]
  | cons y ys ih =>
    unfold insert_by_date
    split
    · simp
    · simp [ih]
      tauto

theorem mem_sort_by_date_desc {x : MomentRow} {l : List MomentRow} :
    x ∈ sort_by_date_desc l ↔ x ∈ l := by
  induction l with
  | nil => simp [sort_by_date_desc]
  | cons y ys ih => simp [sort_by_date_desc, mem_insert_by_date, ih]

/-- C9: every row returned by `get_moment_feed` satisfies the visibility
predicate of its WHERE clause — public, or friends-only with the requester
following the author, or department-only with the author in the requester's
department — and in particular a row with privacy `"Private"` is never
returned, regardless of the requester. -/
theorem feed_visibility (st : DBState) (user : String) (limit offset : Nat)
    (row : MomentRow) (h : row ∈ get_moment_feed st user limit offset) :
    (row.privacy = "Public" ∨
      (row.privacy = "Friends" ∧ follows_author st user row.author = true) ∨
      (row.privacy = "Department" ∧
        author_in_user_department st user row.author = true)) ∧
    row.privacy ≠ "Private" := by
  unfold get_moment_feed at h
  have h1 := List.mem_of_mem_take h
  have h2 := List.mem_of_mem_drop h1
  have h3 := mem_sort_by_date_desc.mp h2
  have hv := (List.mem_filter.mp h3).2
  unfold feed_visible at hv
  simp only [Bool.or_eq_true, Bool.and_eq_true, beq_iff_eq] at hv
  refine ⟨or_assoc.mp hv, ?_⟩
  rcases hv with (hp | ⟨hp, _⟩) | ⟨hp, _⟩ <;> rw [hp] <;> decide

/-- Witness for C9: the public moment of `db_feed` is in `bob`'s feed. -/
theorem feed_visibility_witness :
    (feed_row.privacy = "Public" ∨
      (feed_row.privacy = "Friends" ∧
        follows_author db_feed "bob" feed_row.author = true) ∨
      (feed_row.privacy = "Department" ∧
        author_in_user_department db_feed "bob" feed_row.author = true)) ∧
    feed_row.privacy ≠ "Private" :=
  feed_visibility db_feed "bob" 20 0 feed_row (by decide)

/-! ### C4: hashtag extraction in `before_save`

The rewriting passes never map a non-empty string to the empty string (all
replacement fragments are non-empty), so the `if self.content:` guard of
`extract_hashtags` is still satisfied after `process_content`. -/

theorem mk_ne_empty {l : List Char} (h : l ≠ []) : String.mk l ≠ "" := by
  intro he
  apply h
  simpa using congrArg String.data he

theorem data_ne_nil {s : String} (h : s ≠ "") : s.data ≠ [] := by
  intro hd
  apply h
  cases s with
  | mk d => rw [show d = [] from hd]

theorem replaceList_ne_nil {p : Char} {ps rep l : List Char}
    (hrep : rep ≠ []) (hl : l ≠ []) : replaceList p ps rep l ≠ [] := by
  cases l with
  | nil => exact absurd rfl hl
  | cons c rest =>
    unfold replaceList
    simp only [List.length_cons, replaceListF]
    split
    · intro he
      exact hrep (List.append_eq_nil.mp he).1
    · simp

theorem subTag_ne_nil {t : Char} {a b c2 l : List Char}
    (ha : a ≠ []) (hl : l ≠ []) : subTag t a b c2 l ≠ [] := by
  cases l with
  | nil => exact absurd rfl hl
  | cons c rest =>
    unfold subTag
    simp only [List.length_cons, subTagF]
    split
    · split
      · simp
      · intro he
        simp only [List.append_eq_nil] at he
        tauto
    · simp

theorem subLinks_ne_nil {l : List Char} (hl : l ≠ []) : subLinks l ≠ [] := by
  cases l with
  | nil => exact absurd rfl hl
  | cons c rest =>
    unfold subLinks
    simp only [List.length_cons, subLinksF]
    split
    · simp
    · split
      · simp
      · intro he
        simp only [List.append_eq_nil] at he
        have hla : link_text_a ≠ [] := by decide
        tauto

theorem replaceStr_ne_empty {pat rep s : String} (hrep : rep ≠ "")
    (hs : s ≠ "") : replaceStr pat rep s ≠ "" := by
  unfold replaceStr
  split
  · exact hs
  · exact mk_ne_empty (replaceList_ne_nil (data_ne_nil hrep) (data_ne_nil hs))

theorem process_emojis_ne_empty {s : String} (hs : s ≠ "") :
    process_emojis s ≠ "" := by
  unfold process_emojis emoji_map
  simp only [List.foldl]
  repeat' apply replaceStr_ne_empty (by decide)
  exact hs

theorem process_links_ne_empty {s : String} (hs : s ≠ "") :
    process_links s ≠ "" :=
  mk_ne_empty (subLinks_ne_nil (data_ne_nil hs))

theorem process_hashtags_ne_empty {s : String} (hs : s ≠ "") :
    process_hashtags s ≠ "" :=
  mk_ne_empty (subTag_ne_nil (by decide) (data_ne_nil hs))

theorem process_mentions_ne_empty {s : String} (hs : s ≠ "") :
    process_mentions s ≠ "" :=
  mk_ne_empty (subTag_ne_nil (by decide) (data_ne_nil hs))

theorem process_content_str_ne_empty {s : String} (hs : s ≠ "") :
    process_content_str s ≠ "" :=
  process_mentions_ne_empty
    (process_hashtags_ne_empty (process_links_ne_empty (process_emojis_ne_empty hs)))

theorem set_privacy_settings_hashtags (m : MomentDoc) :
    (set_privacy_settings m).hashtags = m.hashtags := by
  unfold set_privacy_settings
  repeat' split
  all_goals rfl

theorem generate_preview_hashtags (m : MomentDoc) :
    (generate_preview m).hashtags = m.hashtags := rfl

theorem extract_mentions_hashtags (now : String) (st : DBState)
    (m : MomentDoc) : ((extract_mentions now st m).2).hashtags = m.hashtags := by
  unfold extract_mentions
  split <;> rfl

/-- C4: for a moment with non-empty content, after `before_save` the
`hashtags` field is the JSON encoding of the list of `#(\w+)` matches, in
order of occurrence, over the content **after** `process_content` has
rewritten emojis, links, hashtags and mentions into HTML. -/
theorem before_save_hashtags (now : String) (st : DBState) (m : MomentDoc)
    (h : m.content ≠ "") :
    ((before_save now st m).2).hashtags =
      json_dumps_str_list (findall_tags '#' (process_content_str m.content)) := by
  have ht : truthyS m.content = true := by simp [truthyS, h]
  have ht2 : process_content_str m.content ≠ "" := process_content_str_ne_empty h
  simp only [before_save]
  rw [show process_content m = { m with content := process_content_str m.content } from by
    unfold process_content; rw [if_pos ht]]
  rw [generate_preview_hashtags, set_privacy_settings_hashtags,
    extract_mentions_hashtags]
  unfold extract_hashtags
  split
  · rfl
  · rename_i hft
    exfalso
    apply hft
    show truthyS (process_content_str m.content) = true
    simp only [truthyS, bne_iff_ne, ne_eq]
    exact ht2

/-- Witness for C4: on the content `"hi #lean"` the extraction runs over the
processed HTML and stores `["lean"]` as JSON. -/
theorem before_save_hashtags_witness :
    ((before_save "t0" db_empty hash_doc).2).hashtags =
      json_dumps_str_list (findall_tags '#' (process_content_str hash_doc.content)) ∧
    ((before_save "t0" db_empty hash_doc).2).hashtags = "[\"lean\"]" :=
  ⟨before_save_hashtags "t0" db_empty hash_doc (by decide), by decide⟩

end Moments
